import Mathlib

/-!
Verification of the Gateway Resilience Layer of the governance-dashboard
backend: the circuit-breaker registry and resilient proxy handler of the
integration service (`src/services/integration-service/src/handlers/integrations.rs`),
and the API gateway's CSRF middleware, rate limiter and key extraction
(`src/services/api-gateway/src/middleware/{csrf,rate_limit,auth_middleware}.rs`,
`src/services/api-gateway/src/main.rs`), together with the shared error type
(`src/libs/common/src/error.rs`).

The Rust `HashMap`s guarded by `RwLock` are modelled as association lists;
`std::time::Instant` is modelled as a `Nat` count of milliseconds, so that
`Duration::as_secs` becomes integer division by 1000 (truncating, exactly as
in Rust).  Fallible operations return `Except`.
-/

deriving instance DecidableEq for Except

namespace Governance

/-- Association-list lookup, mirroring `HashMap::get` — the first binding for
the key wins (our insert keeps keys unique). -/
def alistLookup {α : Type} : List (String × α) → String → Option α
  | [], _ => none
  | (k', v) :: rest, k => if k' = k then some v else alistLookup rest k

/-- Association-list insert-or-replace, mirroring `HashMap::insert` /
in-place mutation of a looked-up entry. -/
def alistInsert {α : Type} : List (String × α) → String → α → List (String × α)
  | [], k, v => [(k, v)]
  | (k', v') :: rest, k, v =>
      if k' = k then (k, v) :: rest else (k', v') :: alistInsert rest k v

theorem alistLookup_insert_self {α : Type} (m : List (String × α)) (k : String) (v : α) :
    alistLookup (alistInsert m k v) k = some v := by
  induction m with
  | nil => simp [alistInsert, alistLookup]
  | cons hd tl ih =>
      obtain ⟨k', v'⟩ := hd
      by_cases h : k' = k
      · simp [alistInsert, alistLookup, h]
      · simp [alistInsert, alistLookup, h, ih]

theorem alistLookup_insert_ne {α : Type} (m : List (String × α)) (k k' : String) (v : α)
    (h : k ≠ k') : alistLookup (alistInsert m k v) k' = alistLookup m k' := by
  induction m with
  | nil => simp [alistInsert, alistLookup, h]
  | cons hd tl ih =>
      obtain ⟨k0, v0⟩ := hd
      by_cases h0 : k0 = k
      · subst h0
        simp [alistInsert, alistLookup, h]
      · by_cases h1 : k0 = k'
        · simp [alistInsert, alistLookup, h0, h1, Ne.symm h]
        · simp [alistInsert, alistLookup, h0, h1, ih]

/-- Replacing an entry by the value it already holds leaves the list unchanged:
this is how "return `Denied` without mutating state" is read off the model. -/
theorem alistInsert_lookup_eq {α : Type} (m : List (String × α)) (k : String) (v : α)
    (h : alistLookup m k = some v) : alistInsert m k v = m := by
  induction m with
  | nil => simp [alistLookup] at h
  | cons hd tl ih =>
      obtain ⟨k', v'⟩ := hd
      by_cases hk : k' = k
      · subst hk
        simp [alistLookup] at h
        simp [alistInsert, h]
      · simp [alistLookup, hk] at h
        simp [alistInsert, hk, ih h]

/-! ## Circuit breaker registry
From `integrations.rs`: `CircuitBreakerState`, `CircuitState`,
`check_circuit_breaker`, `record_success`, `record_failure`. -/

/-- `enum CircuitState { Closed, Open, HalfOpen }`. -/
inductive CircuitState where
  | Closed
  | Open
  | HalfOpen
  deriving DecidableEq, Repr

/-- `struct CircuitBreakerState { failures: i32, last_failure_time: Option<Instant>, state }`.
`failures : Int` models the `i32` (counts stay tiny, far from overflow);
instants are `Nat` milliseconds. -/
structure CircuitBreakerState where
  failures : Int
  last_failure_time : Option Nat
  state : CircuitState
  deriving DecidableEq, Repr

/-- The fresh entry `or_insert`ed by the source:
`{ failures: 0, last_failure_time: None, state: Closed }`. -/
def freshBreaker : CircuitBreakerState :=
  { failures := 0, last_failure_time := none, state := CircuitState.Closed }

/-- `type CircuitBreakers = Arc<RwLock<HashMap<String, CircuitBreakerState>>>`,
with the lock elided (one critical section per call). -/
abbrev CircuitBreakers := List (String × CircuitBreakerState)

/-- `async fn check_circuit_breaker(breakers, provider_key) -> bool`.
Looks up or creates the entry; `Closed`/`HalfOpen` allow; `Open` allows only
when `last_failure.elapsed().as_secs() > 30`, transitioning to `HalfOpen`.
Returns the decision together with the mutated map; `now` is in milliseconds
and `elapsed().as_secs()` is `(now - lf) / 1000`. -/
def check_circuit_breaker (breakers : CircuitBreakers) (provider_key : String)
    (now : Nat) : Bool × CircuitBreakers :=
  let st := (alistLookup breakers provider_key).getD freshBreaker
  let breakers' := alistInsert breakers provider_key st
  match st.state with
  | CircuitState.Closed => (true, breakers')
  | CircuitState.Open =>
      match st.last_failure_time with
      | some lf =>
          if (now - lf) / 1000 > 30 then
            (true, alistInsert breakers' provider_key
              { st with state := CircuitState.HalfOpen })
          else
            (false, breakers')
      | none => (false, breakers')
  | CircuitState.HalfOpen => (true, breakers')

/-- `async fn record_success(breakers, provider_key)`: only touches an entry
that already exists (`get_mut`), resetting it to the closed state. -/
def record_success (breakers : CircuitBreakers) (provider_key : String) :
    CircuitBreakers :=
  match alistLookup breakers provider_key with
  | some _ =>
      alistInsert breakers provider_key
        { failures := 0, last_failure_time := none, state := CircuitState.Closed }
  | none => breakers

/-- The entry-level effect of one `record_failure` call at instant `now`. -/
def failStep (st : CircuitBreakerState) (now : Nat) : CircuitBreakerState :=
  let st' := { st with failures := st.failures + 1, last_failure_time := some now }
  if st'.failures ≥ 5 then { st' with state := CircuitState.Open } else st'

/-- `async fn record_failure(breakers, provider_key)`: looks up or creates the
entry, increments `failures`, stamps `last_failure_time = now`, and opens the
circuit once `failures >= 5`. -/
def record_failure (breakers : CircuitBreakers) (provider_key : String)
    (now : Nat) : CircuitBreakers :=
  let st := (alistLookup breakers provider_key).getD freshBreaker
  alistInsert breakers provider_key (failStep st now)

/-! ## Shared error type
From `src/libs/common/src/error.rs`: `enum AppError` and its
`ResponseError::status_code` mapping. -/

/-- `enum AppError` (the `Database`/`Redis` variants carry an error message;
structured sources are flattened to the displayed text). -/
inductive AppError where
  | Database (msg : String)
  | Redis (msg : String)
  | Auth (msg : String)
  | Validation (msg : String)
  | NotFound (msg : String)
  | Internal (msg : String)
  | Unauthorized
  | Forbidden
  | BadRequest (msg : String)
  deriving DecidableEq, Repr

/-- `impl ResponseError for AppError { fn status_code(&self) -> StatusCode }`. -/
def AppError.status_code : AppError → Nat
  | AppError.Database _ => 500
  | AppError.Redis _ => 500
  | AppError.Auth _ => 401
  | AppError.Validation _ => 400
  | AppError.NotFound _ => 404
  | AppError.Internal _ => 500
  | AppError.Unauthorized => 401
  | AppError.Forbidden => 403
  | AppError.BadRequest _ => 400

/-! ## Rate limiter
From `src/services/api-gateway/src/middleware/rate_limit.rs`:
`RateLimiter::check_rate_limit` and `extract_rate_limit_key`. -/

/-- `struct RateLimitEntry { count: u32, window_start: Instant }` with the
instant as `Nat` milliseconds. -/
structure RateLimitEntry where
  count : Nat
  window_start : Nat
  deriving DecidableEq, Repr

/-- The limiter's shared `HashMap<String, RateLimitEntry>` store. -/
abbrev RlStore := List (String × RateLimitEntry)

/-- `async fn check_rate_limit(&self, key) -> Result<(), ()>` as a pure map
transformer.  `entry(key).or_insert({count: 0, window_start: now})`; reset the
window when `now.duration_since(window_start) > Duration::from_secs(window_secs)`
(strict, in milliseconds: `now - window_start > window_secs * 1000`); deny when
`count >= max_requests` without further mutation; otherwise increment.
Returns `(true, store')` for `Ok` (allowed) and `(false, store')` for `Err`
(denied). -/
def check_rate_limit (max_requests : Nat) (window_secs : Nat) (store : RlStore)
    (key : String) (now : Nat) : Bool × RlStore :=
  let e0 := (alistLookup store key).getD { count := 0, window_start := now }
  let e1 := if now - e0.window_start > window_secs * 1000 then
      ({ count := 0, window_start := now } : RateLimitEntry)
    else e0
  if e1.count ≥ max_requests then
    (false, alistInsert store key e1)
  else
    (true, alistInsert store key { e1 with count := e1.count + 1 })

/-- `fn extract_rate_limit_key(req) -> String`.  The `x-user-id` header is an
`Option (Option String)`: outer `none` = header absent, inner `none` = header
bytes not valid visible ASCII (`to_str` fails, falling through to the IP
branch); `realip` is `realip_remote_addr()`. -/
def extract_rate_limit_key (user_id_header : Option (Option String))
    (realip : Option String) : String :=
  match user_id_header with
  | some (some u) => "user:" ++ u
  | _ =>
      match realip with
      | some addr => "ip:" ++ addr
      | none => "unknown"

/-! ## Resilient proxy handler
From `integrations.rs`: `proxy_llm_request`, `check_policies`, provider
dispatch.  The upstream network is external: the outcomes of the two
implemented adapters (`proxy_to_openai`, `proxy_to_anthropic`) enter as the
`upstream` parameter; the three stubbed adapters are hard errors exactly as in
the source.  The database is external as well: the outcomes of the
`record_metrics` and `record_audit_log` inserts enter as `Except` parameters
(the source applies `?` to both). -/

/-- `struct Usage { prompt_tokens: i32, completion_tokens: i32, total_tokens: i32 }`. -/
structure Usage where
  prompt_tokens : Int
  completion_tokens : Int
  total_tokens : Int
  deriving DecidableEq, Repr

/-- `struct ProxyResponse` (choices and cost elided — no claim inspects them). -/
structure ProxyResponse where
  id : String
  provider : String
  model : String
  usage : Usage
  deriving DecidableEq, Repr

/-- `struct ProxyRequest` (messages/temperature/stream elided — no claim
inspects them). -/
structure ProxyRequest where
  provider : String
  model : String
  max_tokens : Option Int
  deriving DecidableEq, Repr

/-- `async fn proxy_to_google`: `Err(Internal("Google provider not yet implemented"))`. -/
def proxy_to_google : Except AppError ProxyResponse :=
  Except.error (AppError.Internal "Google provider not yet implemented")

/-- `async fn proxy_to_azure`: `Err(Internal("Azure provider not yet implemented"))`. -/
def proxy_to_azure : Except AppError ProxyResponse :=
  Except.error (AppError.Internal "Azure provider not yet implemented")

/-- `async fn proxy_to_bedrock`: `Err(Internal("Bedrock provider not yet implemented"))`. -/
def proxy_to_bedrock : Except AppError ProxyResponse :=
  Except.error (AppError.Internal "Bedrock provider not yet implemented")

/-- `async fn check_policies(...)`: rejects `max_tokens > 100000` with
`BadRequest("Token limit exceeded")`. -/
def check_policies (req : ProxyRequest) : Except AppError Unit :=
  match req.max_tokens with
  | some mt =>
      if mt > 100000 then Except.error (AppError.BadRequest "Token limit exceeded")
      else Except.ok ()
  | none => Except.ok ()

/-- The `match req.provider.as_str()` dispatch of `proxy_llm_request`
(sequential string comparison, catch-all arm `BadRequest`). -/
def dispatch_provider (upstream : String → Except AppError ProxyResponse)
    (req : ProxyRequest) : Except AppError ProxyResponse :=
  if req.provider = "openai" then upstream "openai"
  else if req.provider = "anthropic" then upstream "anthropic"
  else if req.provider = "google" then proxy_to_google
  else if req.provider = "azure" then proxy_to_azure
  else if req.provider = "bedrock" then proxy_to_bedrock
  else Except.error (AppError.BadRequest ("Unsupported provider: " ++ req.provider))

/-- `async fn proxy_llm_request(...)` as a pure transformer of the breaker map.
Order as in the source: breaker `check_circuit_breaker` (fail fast with
`Internal("Service temporarily unavailable")`), `check_policies?`, provider
dispatch, then on success `record_success`, `record_metrics?`,
`record_audit_log?`, and on failure `record_failure`, `record_metrics?`,
propagate.  Returns the HTTP-level outcome and the final breaker map. -/
def proxy_llm_request (breakers : CircuitBreakers)
    (upstream : String → Except AppError ProxyResponse)
    (metricsResult auditResult : Except AppError Unit)
    (req : ProxyRequest) (now : Nat) :
    Except AppError ProxyResponse × CircuitBreakers :=
  let provider_key := req.provider ++ ":" ++ req.model
  let checked := check_circuit_breaker breakers provider_key now
  if checked.1 = false then
    (Except.error (AppError.Internal "Service temporarily unavailable"), checked.2)
  else
    match check_policies req with
    | Except.error e => (Except.error e, checked.2)
    | Except.ok _ =>
        match dispatch_provider upstream req with
        | Except.ok response =>
            let breakers1 := record_success checked.2 provider_key
            match metricsResult with
            | Except.error e => (Except.error e, breakers1)
            | Except.ok _ =>
                match auditResult with
                | Except.error e => (Except.error e, breakers1)
                | Except.ok _ => (Except.ok response, breakers1)
        | Except.error e =>
            let breakers1 := record_failure checked.2 provider_key now
            match metricsResult with
            | Except.error e2 => (Except.error e2, breakers1)
            | Except.ok _ => (Except.error e, breakers1)

/-- A sequence of `record_failure` calls on one key, at the listed instants. -/
def record_failures (breakers : CircuitBreakers) (key : String) :
    List Nat → CircuitBreakers
  | [] => breakers
  | t :: ts => record_failures (record_failure breakers key t) key ts

/-- A sequence of `check_rate_limit` calls on one key, at the listed instants;
returns the decisions in order together with the final store. -/
def rate_limit_calls (max_requests window_secs : Nat) (store : RlStore)
    (key : String) : List Nat → List Bool × RlStore
  | [] => ([], store)
  | t :: ts =>
      let r := check_rate_limit max_requests window_secs store key t
      let rest := rate_limit_calls max_requests window_secs r.2 key ts
      (r.1 :: rest.1, rest.2)

theorem record_failure_lookup (breakers : CircuitBreakers) (key : String) (now : Nat) :
    alistLookup (record_failure breakers key now) key =
      some (failStep ((alistLookup breakers key).getD freshBreaker) now) := by
  simp [record_failure, alistLookup_insert_self]

/-- Invariant of the failure loop: from a consistent entry (`Open` iff the
count has reached 5), `k` further failures advance the count by `k` and the
state stays `Open`-iff-count-≥-5. -/
theorem record_failures_invariant (key : String) :
    ∀ (ts : List Nat) (breakers : CircuitBreakers) (f : Int) (lf : Option Nat),
      alistLookup breakers key = some
        { failures := f, last_failure_time := lf,
          state := if 5 ≤ f then CircuitState.Open else CircuitState.Closed } →
      ∃ lf', alistLookup (record_failures breakers key ts) key = some
        { failures := f + ts.length, last_failure_time := lf',
          state := if 5 ≤ f + ts.length then CircuitState.Open
            else CircuitState.Closed } := by
  intro ts
  induction ts with
  | nil =>
      intro breakers f lf h
      exact ⟨lf, by simpa [record_failures] using h⟩
  | cons t ts ih =>
      intro breakers f lf h
      have hstep : alistLookup (record_failure breakers key t) key = some
          { failures := f + 1, last_failure_time := some t,
            state := if 5 ≤ f + 1 then CircuitState.Open
              else CircuitState.Closed } := by
        rw [record_failure_lookup, h]
        by_cases h5 : 5 ≤ f
        · have h6 : 5 ≤ f + 1 := by omega
          simp [failStep, h5, h6]
        · by_cases h6 : 5 ≤ f + 1
          · simp [failStep, h5, h6]
          · simp [failStep, h5, h6]
      obtain ⟨lf', hlf'⟩ := ih (record_failure breakers key t) (f + 1) (some t) hstep
      refine ⟨lf', ?_⟩
      rw [record_failures, hlf']
      have hlen : f + 1 + (ts.length : Int) = f + ((t :: ts).length : Int) := by
        simp only [List.length_cons]
        push_cast
        ring
      rw [hlen]

/-- **C6** — Circuit breaker threshold and reset.  From an entry in `Closed`
with 0 consecutive failures, fewer than 5 `record_failure` calls leave the
state `Closed` with the count equal to the number of calls; exactly 5 calls
move it to `Open` with count 5; and a single `record_success` on any existing
entry resets the count to 0, the state to `Closed`, and clears
`last_failure_time`. -/
theorem breaker_threshold_and_success_reset (breakers : CircuitBreakers)
    (key : String) (ts : List Nat)
    (h0 : alistLookup breakers key = some freshBreaker) :
    (ts.length < 5 → ∃ lf', alistLookup (record_failures breakers key ts) key =
      some { failures := (ts.length : Int), last_failure_time := lf',
             state := CircuitState.Closed }) ∧
    (ts.length = 5 → ∃ lf', alistLookup (record_failures breakers key ts) key =
      some { failures := 5, last_failure_time := lf',
             state := CircuitState.Open }) ∧
    (∀ (m : CircuitBreakers) (st : CircuitBreakerState),
      alistLookup m key = some st →
      alistLookup (record_success m key) key = some freshBreaker) := by
  have hbase : alistLookup breakers key = some
      { failures := 0, last_failure_time := (none : Option Nat),
        state := if 5 ≤ (0 : Int) then CircuitState.Open
          else CircuitState.Closed } := by
    simpa [freshBreaker] using h0
  refine ⟨?_, ?_, ?_⟩
  · intro hlt
    obtain ⟨lf', hlf'⟩ := record_failures_invariant key ts breakers 0 none hbase
    refine ⟨lf', ?_⟩
    have hnot : ¬ (5 ≤ ts.length) := by omega
    simpa [hnot] using hlf'
  · intro heq
    obtain ⟨lf', hlf'⟩ := record_failures_invariant key ts breakers 0 none hbase
    refine ⟨lf', ?_⟩
    rw [heq] at hlf'
    simpa using hlf'
  · intro m st hm
    simp [record_success, hm, alistLookup_insert_self, freshBreaker]

/-- **C6 witness** — the threshold theorem applied to a single-entry map with
five failure instants. -/
theorem breaker_threshold_and_success_reset_witness :
    ((([10, 20, 30, 40, 50] : List Nat).length < 5 → ∃ lf',
      alistLookup (record_failures [("openai:gpt-4", freshBreaker)] "openai:gpt-4"
        [10, 20, 30, 40, 50]) "openai:gpt-4" =
      some { failures := (([10, 20, 30, 40, 50] : List Nat).length : Int),
             last_failure_time := lf', state := CircuitState.Closed }) ∧
    (([10, 20, 30, 40, 50] : List Nat).length = 5 → ∃ lf',
      alistLookup (record_failures [("openai:gpt-4", freshBreaker)] "openai:gpt-4"
        [10, 20, 30, 40, 50]) "openai:gpt-4" =
      some { failures := 5, last_failure_time := lf',
             state := CircuitState.Open }) ∧
    (∀ (m : CircuitBreakers) (st : CircuitBreakerState),
      alistLookup m "openai:gpt-4" = some st →
      alistLookup (record_success m "openai:gpt-4") "openai:gpt-4" =
        some freshBreaker)) :=
  breaker_threshold_and_success_reset [("openai:gpt-4", freshBreaker)]
    "openai:gpt-4" [10, 20, 30, 40, 50] (by simp [alistLookup])

/-- **C5 counterexample** — the claim says a check at exactly `t0 + 30s`
(breaker opened at `t0`, here `t0 = 0` ms, checked at `30000` ms) is allowed;
the code truncates to whole seconds and requires strictly more than 30, so the
check is refused. -/
theorem breaker_allow_false_at_exactly_30s :
    (check_circuit_breaker
      [("openai:gpt-4",
        { failures := 5, last_failure_time := some 0,
          state := CircuitState.Open })] "openai:gpt-4" 30000).1 = false := by
  decide

/-- **C5 (amended)** — Circuit breaker recovery.  For an `Open` entry whose
last failure is at `lf`, a check at `now` is refused (and the map left
unchanged) whenever the elapsed whole seconds `(now - lf) / 1000` are at most
30 — in particular at exactly `lf + 30s` — and is allowed, transitioning the
entry to `HalfOpen`, exactly when the elapsed whole seconds exceed 30. -/
theorem breaker_open_allow_iff_over_30s (breakers : CircuitBreakers)
    (key : String) (st : CircuitBreakerState) (lf : Option Nat) (now : Nat)
    (h : alistLookup breakers key = some st)
    (hopen : st.state = CircuitState.Open)
    (hlf : st.last_failure_time = lf) :
    (∀ t, lf = some t → (now - t) / 1000 ≤ 30 →
      check_circuit_breaker breakers key now = (false, breakers)) ∧
    (∀ t, lf = some t → (now - t) / 1000 > 30 →
      (check_circuit_breaker breakers key now).1 = true ∧
      alistLookup (check_circuit_breaker breakers key now).2 key =
        some { st with state := CircuitState.HalfOpen }) := by
  have hins : alistInsert breakers key st = breakers := alistInsert_lookup_eq _ _ _ h
  constructor
  · intro t hlt hle
    have hnot : ¬ ((now - t) / 1000 > 30) := by omega
    simp [check_circuit_breaker, h, hopen, hlf, hlt, hnot, hins]
  · intro t hlt hgt
    constructor
    · simp [check_circuit_breaker, h, hopen, hlf, hlt, hgt]
    · simp [check_circuit_breaker, h, hopen, hlf, hlt, hgt, alistLookup_insert_self]

/-- **C5 witness** — the amended recovery theorem applied to a concrete map:
refused at 30000 ms elapsed, allowed (entering `HalfOpen`) at 31000 ms. -/
theorem breaker_open_allow_iff_over_30s_witness :
    ((30000 - 0) / 1000 ≤ 30 ∧
      check_circuit_breaker
        [("openai:gpt-4",
          { failures := 5, last_failure_time := some 0,
            state := CircuitState.Open })] "openai:gpt-4" 30000 =
        (false,
          [("openai:gpt-4",
            { failures := 5, last_failure_time := some 0,
              state := CircuitState.Open })])) ∧
    ((31000 - 0) / 1000 > 30 ∧
      (check_circuit_breaker
        [("openai:gpt-4",
          { failures := 5, last_failure_time := some 0,
            state := CircuitState.Open })] "openai:gpt-4" 31000).1 = true) := by
  have h30 := breaker_open_allow_iff_over_30s
    [("openai:gpt-4",
      { failures := 5, last_failure_time := some 0,
        state := CircuitState.Open })] "openai:gpt-4"
    { failures := 5, last_failure_time := some 0, state := CircuitState.Open }
    (some 0) 30000 (by simp [alistLookup]) rfl rfl
  have h31 := breaker_open_allow_iff_over_30s
    [("openai:gpt-4",
      { failures := 5, last_failure_time := some 0,
        state := CircuitState.Open })] "openai:gpt-4"
    { failures := 5, last_failure_time := some 0, state := CircuitState.Open }
    (some 0) 31000 (by simp [alistLookup]) rfl rfl
  exact ⟨⟨by decide, h30.1 0 rfl (by decide)⟩,
    ⟨by decide, (h31.2 0 rfl (by decide)).1⟩⟩

/-- Invariant of the rate-limit loop: from an entry with count `c` in a live
window starting at `t0`, calls at instants inside the window are all allowed
while the count stays at most `max_requests`, and the count advances by one
per call with the window start untouched. -/
theorem rate_limit_calls_invariant (N W : Nat) (key : String) (t0 : Nat) :
    ∀ (ts : List Nat) (store : RlStore) (c : Nat),
      alistLookup store key = some { count := c, window_start := t0 } →
      (∀ x ∈ ts, x - t0 ≤ W * 1000) →
      c + ts.length ≤ N →
      (rate_limit_calls N W store key ts).1 = List.replicate ts.length true ∧
      alistLookup (rate_limit_calls N W store key ts).2 key =
        some { count := c + ts.length, window_start := t0 } := by
  intro ts
  induction ts with
  | nil =>
      intro store c hlook _ _
      exact ⟨rfl, by simpa [rate_limit_calls] using hlook⟩
  | cons x ts ih =>
      intro store c hlook hin hle
      have hwin : ¬ (x - t0 > W * 1000) := by
        have := hin x (by simp)
        omega
      have hcap : ¬ (c ≥ N) := by
        have := hle
        simp [List.length_cons] at this
        omega
      have hstep : check_rate_limit N W store key x =
          (true, alistInsert store key { count := c + 1, window_start := t0 }) := by
        simp [check_rate_limit, hlook, hwin, hcap]
      have hrest := ih (alistInsert store key { count := c + 1, window_start := t0 })
        (c + 1) (alistLookup_insert_self _ _ _)
        (fun y hy => hin y (by simp [hy]))
        (by simp [List.length_cons] at hle; omega)
      refine ⟨?_, ?_⟩
      · simp [rate_limit_calls, hstep, hrest.1, List.replicate_succ]
      · have := hrest.2
        simp only [rate_limit_calls, hstep]
        simpa [Nat.add_assoc, Nat.add_comm 1 ts.length] using this

/-- **C7** — Rate-limit boundary.  With `max_requests = N ≥ 1` and a fresh
entry (count 0, window start `t0`), `N` checks at instants inside the window
are all allowed (in particular the `N`-th), leaving count `N`; an `(N+1)`-th
check inside the window is denied with the store returned exactly unchanged;
and a check after more than `window_seconds` have elapsed since `t0` is
allowed with the counter reset to 1 (window restarted at that instant). -/
theorem rate_limit_boundary (N W : Nat) (store : RlStore) (key : String)
    (t0 : Nat) (ts : List Nat) (u v : Nat)
    (hN : 1 ≤ N)
    (h0 : alistLookup store key = some { count := 0, window_start := t0 })
    (hlen : ts.length = N)
    (hts : ∀ x ∈ ts, x - t0 ≤ W * 1000)
    (hu : u - t0 ≤ W * 1000)
    (hv : v - t0 > W * 1000) :
    (rate_limit_calls N W store key ts).1 = List.replicate N true ∧
    check_rate_limit N W (rate_limit_calls N W store key ts).2 key u =
      (false, (rate_limit_calls N W store key ts).2) ∧
    (check_rate_limit N W (rate_limit_calls N W store key ts).2 key v).1 = true ∧
    alistLookup (check_rate_limit N W (rate_limit_calls N W store key ts).2 key v).2
      key = some { count := 1, window_start := v } := by
  obtain ⟨hdec, hfin⟩ := rate_limit_calls_invariant N W key t0 ts store 0 h0 hts
    (by omega)
  have hfin' : alistLookup (rate_limit_calls N W store key ts).2 key =
      some { count := N, window_start := t0 } := by
    simpa [hlen] using hfin
  refine ⟨by simpa [hlen] using hdec, ?_, ?_, ?_⟩
  · have hwin : ¬ (u - t0 > W * 1000) := by omega
    have hins := alistInsert_lookup_eq (rate_limit_calls N W store key ts).2 key
      { count := N, window_start := t0 } hfin'
    simp [check_rate_limit, hfin', hwin, hins]
  · have hlow : ¬ ((0 : Nat) ≥ N) := by omega
    simp [check_rate_limit, hfin', hv, hlow]
  · have hlow : ¬ ((0 : Nat) ≥ N) := by omega
    simp [check_rate_limit, hfin', hv, hlow, alistLookup_insert_self]

/-- **C7 witness** — the boundary theorem with `N = 2`, `window = 1s`, checks
at 100 ms and 200 ms, a denied third check at 300 ms, and an allowed check at
2000 ms after the window expired. -/
theorem rate_limit_boundary_witness :
    ((rate_limit_calls 2 1 [("user:alice", { count := 0, window_start := 0 })]
        "user:alice" [100, 200]).1 = List.replicate 2 true ∧
     check_rate_limit 2 1
        (rate_limit_calls 2 1 [("user:alice", { count := 0, window_start := 0 })]
          "user:alice" [100, 200]).2 "user:alice" 300 =
        (false,
         (rate_limit_calls 2 1 [("user:alice", { count := 0, window_start := 0 })]
           "user:alice" [100, 200]).2) ∧
     (check_rate_limit 2 1
        (rate_limit_calls 2 1 [("user:alice", { count := 0, window_start := 0 })]
          "user:alice" [100, 200]).2 "user:alice" 2000).1 = true ∧
     alistLookup (check_rate_limit 2 1
        (rate_limit_calls 2 1 [("user:alice", { count := 0, window_start := 0 })]
          "user:alice" [100, 200]).2 "user:alice" 2000).2 "user:alice" =
        some { count := 1, window_start := 2000 }) :=
  rate_limit_boundary 2 1 [("user:alice", { count := 0, window_start := 0 })]
    "user:alice" 0 [100, 200] 300 2000 (by decide) (by simp [alistLookup])
    (by decide) (by decide) (by decide) (by decide)

/-- **C10** — Requests with no `x-user-id` header and no resolvable client IP
all get the literal rate-limit key `"unknown"`, hence share one bucket: two
such checks accumulate in the single `"unknown"` entry. -/
theorem rate_limit_key_unknown_shared_bucket :
    extract_rate_limit_key none none = "unknown" ∧
    alistLookup
      (check_rate_limit 100 60
        (check_rate_limit 100 60 [] (extract_rate_limit_key none none) 0).2
        (extract_rate_limit_key none none) 5).2
      (extract_rate_limit_key none none) =
      some { count := 2, window_start := 0 } := by
  refine ⟨rfl, by decide⟩

/-- **C1 counterexample** — the claim says an unknown provider leaves every
breaker entry untouched; at the concrete input `{provider: "unknown",
model: "x"}` against an empty registry the handler returns the 400 but also
creates the `"unknown:x"` entry and records a failure on it. -/
theorem unsupported_provider_breaker_mutation_cex :
    (proxy_llm_request [] (fun _ => Except.error (AppError.Internal "unused"))
        (Except.ok ()) (Except.ok ())
        { provider := "unknown", model := "x", max_tokens := none } 0).1 =
      Except.error (AppError.BadRequest "Unsupported provider: unknown") ∧
    (proxy_llm_request [] (fun _ => Except.error (AppError.Internal "unused"))
        (Except.ok ()) (Except.ok ())
        { provider := "unknown", model := "x", max_tokens := none } 0).2 =
      [("unknown:x",
        { failures := 1, last_failure_time := some 0,
          state := CircuitState.Closed })] ∧
    ([("unknown:x",
        { failures := 1, last_failure_time := some 0,
          state := CircuitState.Closed })] : CircuitBreakers) ≠ [] := by
  decide

/-- **C1 (amended)** — An invocation with a provider outside the supported set
returns `BadRequest("Unsupported provider: …")` (HTTP 400), but the
circuit-breaker registry is mutated: the breaker check materializes the
`provider:model` entry, and because the `BadRequest` flows through the
handler's failure branch, `record_failure` increments that entry's failure
count and stamps `last_failure_time`. -/
theorem unsupported_provider_badRequest_and_failure_recorded
    (breakers : CircuitBreakers)
    (upstream : String → Except AppError ProxyResponse)
    (auditResult : Except AppError Unit) (req : ProxyRequest) (now : Nat)
    (st0 : CircuitBreakerState)
    (h1 : req.provider ≠ "openai") (h2 : req.provider ≠ "anthropic")
    (h3 : req.provider ≠ "google") (h4 : req.provider ≠ "azure")
    (h5 : req.provider ≠ "bedrock")
    (hst0 : (alistLookup breakers (req.provider ++ ":" ++ req.model)).getD
      freshBreaker = st0)
    (hclosed : st0.state = CircuitState.Closed)
    (hpol : check_policies req = Except.ok ()) :
    (proxy_llm_request breakers upstream (Except.ok ()) auditResult req now).1 =
      Except.error (AppError.BadRequest ("Unsupported provider: " ++ req.provider)) ∧
    (AppError.BadRequest ("Unsupported provider: " ++ req.provider)).status_code
      = 400 ∧
    alistLookup
      (proxy_llm_request breakers upstream (Except.ok ()) auditResult req now).2
      (req.provider ++ ":" ++ req.model) = some (failStep st0 now) ∧
    (failStep st0 now).failures = st0.failures + 1 ∧
    (failStep st0 now).last_failure_time = some now := by
  have hcb : check_circuit_breaker breakers (req.provider ++ ":" ++ req.model) now
      = (true, alistInsert breakers (req.provider ++ ":" ++ req.model) st0) := by
    simp [check_circuit_breaker, hst0, hclosed]
  have hdisp : dispatch_provider upstream req =
      Except.error (AppError.BadRequest ("Unsupported provider: " ++ req.provider)) := by
    simp [dispatch_provider, h1, h2, h3, h4, h5]
  have hrun : proxy_llm_request breakers upstream (Except.ok ()) auditResult req now
      = (Except.error (AppError.BadRequest ("Unsupported provider: " ++ req.provider)),
         alistInsert (alistInsert breakers (req.provider ++ ":" ++ req.model) st0)
           (req.provider ++ ":" ++ req.model) (failStep st0 now)) := by
    simp [proxy_llm_request, hcb, hpol, hdisp, record_failure,
      alistLookup_insert_self]
  refine ⟨by rw [hrun], rfl, by rw [hrun]; exact alistLookup_insert_self _ _ _, ?_, ?_⟩
  · simp only [failStep]
    split <;> rfl
  · simp only [failStep]
    split <;> rfl

/-- **C1 witness** — the amended theorem at the concrete unknown-provider
input of the counterexample. -/
theorem unsupported_provider_badRequest_and_failure_recorded_witness :
    ((proxy_llm_request [] (fun _ => Except.error (AppError.Internal "unused"))
        (Except.ok ()) (Except.ok ())
        { provider := "unknown", model := "x", max_tokens := none } 0).1 =
      Except.error (AppError.BadRequest ("Unsupported provider: " ++ "unknown")) ∧
    (AppError.BadRequest ("Unsupported provider: " ++ "unknown")).status_code
      = 400 ∧
    alistLookup
      (proxy_llm_request [] (fun _ => Except.error (AppError.Internal "unused"))
        (Except.ok ()) (Except.ok ())
        { provider := "unknown", model := "x", max_tokens := none } 0).2
      ("unknown" ++ ":" ++ "x") = some (failStep freshBreaker 0) ∧
    (failStep freshBreaker 0).failures = freshBreaker.failures + 1 ∧
    (failStep freshBreaker 0).last_failure_time = some 0) :=
  unsupported_provider_badRequest_and_failure_recorded []
    (fun _ => Except.error (AppError.Internal "unused")) (Except.ok ())
    ({ provider := "unknown", model := "x", max_tokens := none } : ProxyRequest)
    0 freshBreaker
    (by decide) (by decide) (by decide) (by decide) (by decide) rfl rfl rfl

/-- **C2 counterexample** — the claim says a metrics-emission failure is
swallowed and the adapter's success envelope is returned; at a concrete input
where the adapter succeeds but the metrics insert fails, the handler returns
the metrics error instead of the success envelope. -/
theorem metrics_failure_masks_success_cex :
    (proxy_llm_request []
        (fun _ => Except.ok
          { id := "r1", provider := "openai", model := "gpt-4",
            usage := { prompt_tokens := 1, completion_tokens := 1,
                       total_tokens := 2 } })
        (Except.error (AppError.Database "metrics insert failed"))
        (Except.ok ())
        { provider := "openai", model := "gpt-4", max_tokens := none } 0).1 =
      Except.error (AppError.Database "metrics insert failed") ∧
    (Except.error (AppError.Database "metrics insert failed")
        : Except AppError ProxyResponse) ≠
      Except.ok
        { id := "r1", provider := "openai", model := "gpt-4",
          usage := { prompt_tokens := 1, completion_tokens := 1,
                     total_tokens := 2 } } := by
  decide

/-- **C2 (amended)** — Metrics and audit emission failures are propagated with
`?`, not swallowed: on a successful adapter call a failing metrics insert (or,
metrics succeeding, a failing audit insert) replaces the success envelope with
the telemetry error, and on a failing adapter call a failing metrics insert
even replaces the adapter's own error.  The response is therefore not
determined solely by the adapter outcome. -/
theorem telemetry_failure_replaces_response (breakers : CircuitBreakers)
    (req : ProxyRequest) (now : Nat) (resp : ProxyResponse)
    (e e2 : AppError) (auditResult : Except AppError Unit)
    (st0 : CircuitBreakerState)
    (hprov : req.provider = "openai")
    (hst0 : (alistLookup breakers (req.provider ++ ":" ++ req.model)).getD
      freshBreaker = st0)
    (hclosed : st0.state = CircuitState.Closed)
    (hpol : check_policies req = Except.ok ()) :
    (proxy_llm_request breakers (fun _ => Except.ok resp)
      (Except.error e) auditResult req now).1 = Except.error e ∧
    (proxy_llm_request breakers (fun _ => Except.ok resp)
      (Except.ok ()) (Except.error e) req now).1 = Except.error e ∧
    (proxy_llm_request breakers (fun _ => Except.error e2)
      (Except.error e) auditResult req now).1 = Except.error e := by
  have hcb : ∀ up : String → Except AppError ProxyResponse,
      check_circuit_breaker breakers (req.provider ++ ":" ++ req.model) now
      = (true, alistInsert breakers (req.provider ++ ":" ++ req.model) st0) := by
    intro _
    simp [check_circuit_breaker, hst0, hclosed]
  have hdispOk : dispatch_provider (fun _ => Except.ok resp) req =
      Except.ok resp := by
    simp [dispatch_provider, hprov]
  have hdispErr : dispatch_provider (fun _ => Except.error e2) req =
      Except.error e2 := by
    simp [dispatch_provider, hprov]
  refine ⟨?_, ?_, ?_⟩
  · simp [proxy_llm_request, hcb (fun _ => Except.ok resp), hpol, hdispOk]
  · simp [proxy_llm_request, hcb (fun _ => Except.ok resp), hpol, hdispOk]
  · simp [proxy_llm_request, hcb (fun _ => Except.error e2), hpol, hdispErr]

/-- **C2 witness** — the amended theorem at a concrete request against an
empty registry. -/
theorem telemetry_failure_replaces_response_witness :
    ((proxy_llm_request [] (fun _ => Except.ok
        { id := "r1", provider := "openai", model := "gpt-4",
          usage := { prompt_tokens := 1, completion_tokens := 1,
                     total_tokens := 2 } })
      (Except.error (AppError.Database "m")) (Except.ok ())
      { provider := "openai", model := "gpt-4", max_tokens := none } 0).1 =
        Except.error (AppError.Database "m") ∧
    (proxy_llm_request [] (fun _ => Except.ok
        { id := "r1", provider := "openai", model := "gpt-4",
          usage := { prompt_tokens := 1, completion_tokens := 1,
                     total_tokens := 2 } })
      (Except.ok ()) (Except.error (AppError.Database "m"))
      { provider := "openai", model := "gpt-4", max_tokens := none } 0).1 =
        Except.error (AppError.Database "m") ∧
    (proxy_llm_request [] (fun _ => Except.error (AppError.Internal "adapter"))
      (Except.error (AppError.Database "m")) (Except.ok ())
      { provider := "openai", model := "gpt-4", max_tokens := none } 0).1 =
        Except.error (AppError.Database "m")) :=
  telemetry_failure_replaces_response []
    { provider := "openai", model := "gpt-4", max_tokens := none } 0
    { id := "r1", provider := "openai", model := "gpt-4",
      usage := { prompt_tokens := 1, completion_tokens := 1, total_tokens := 2 } }
    (AppError.Database "m") (AppError.Internal "adapter") (Except.ok ())
    freshBreaker rfl rfl rfl rfl

/-- **C3 counterexample** — the claim says a disallowed breaker maps to
ServiceUnavailable / HTTP 503; at a concrete open-breaker input the handler
returns `Internal("Service temporarily unavailable")`, whose status code is
500, not 503 (the error type has no 503-mapped variant at all). -/
theorem breaker_open_status_not_503_cex :
    (proxy_llm_request
        [("openai:gpt-4",
          { failures := 5, last_failure_time := some 0,
            state := CircuitState.Open })]
        (fun _ => Except.error (AppError.Internal "unused"))
        (Except.ok ()) (Except.ok ())
        { provider := "openai", model := "gpt-4", max_tokens := none } 1000).1 =
      Except.error (AppError.Internal "Service temporarily unavailable") ∧
    (AppError.Internal "Service temporarily unavailable").status_code = 500 ∧
    (500 : Nat) ≠ 503 := by
  decide

/-- **C3 (amended)** — When the breaker for the request's `provider:model` key
is `Open` with the cool-down not elapsed, the handler fails fast with
`Internal("Service temporarily unavailable")`, mapped to HTTP 500 (not 503),
the breaker map is left unchanged, and no upstream call is attempted: the
whole result is the same for every `upstream`, `metricsResult` and
`auditResult`. -/
theorem breaker_open_fail_fast (breakers : CircuitBreakers)
    (upstream : String → Except AppError ProxyResponse)
    (metricsResult auditResult : Except AppError Unit)
    (req : ProxyRequest) (now : Nat) (st : CircuitBreakerState) (lf : Nat)
    (h : alistLookup breakers (req.provider ++ ":" ++ req.model) = some st)
    (hopen : st.state = CircuitState.Open)
    (hlf : st.last_failure_time = some lf)
    (hcool : ¬ ((now - lf) / 1000 > 30)) :
    proxy_llm_request breakers upstream metricsResult auditResult req now =
      (Except.error (AppError.Internal "Service temporarily unavailable"),
       breakers) ∧
    (AppError.Internal "Service temporarily unavailable").status_code = 500 := by
  have hins := alistInsert_lookup_eq breakers (req.provider ++ ":" ++ req.model)
    st h
  have hcb : check_circuit_breaker breakers (req.provider ++ ":" ++ req.model) now
      = (false, breakers) := by
    simp [check_circuit_breaker, h, hopen, hlf, hcool, hins]
  exact ⟨by simp [proxy_llm_request, hcb], rfl⟩

/-- **C3 witness** — the fail-fast theorem at the concrete open-breaker input
of the counterexample. -/
theorem breaker_open_fail_fast_witness :
    (proxy_llm_request
        [("openai:gpt-4",
          { failures := 5, last_failure_time := some 0,
            state := CircuitState.Open })]
        (fun _ => Except.error (AppError.Internal "unused"))
        (Except.ok ()) (Except.ok ())
        { provider := "openai", model := "gpt-4", max_tokens := none } 1000 =
      (Except.error (AppError.Internal "Service temporarily unavailable"),
       [("openai:gpt-4",
         { failures := 5, last_failure_time := some 0,
           state := CircuitState.Open })]) ∧
    (AppError.Internal "Service temporarily unavailable").status_code = 500) :=
  breaker_open_fail_fast
    [("openai:gpt-4",
      { failures := 5, last_failure_time := some 0,
        state := CircuitState.Open })]
    (fun _ => Except.error (AppError.Internal "unused"))
    (Except.ok ()) (Except.ok ())
    { provider := "openai", model := "gpt-4", max_tokens := none } 1000
    { failures := 5, last_failure_time := some 0, state := CircuitState.Open }
    0 (by simp [alistLookup]) rfl rfl (by decide)

/-! ## CSRF token codec
From `src/services/api-gateway/src/middleware/csrf.rs`:
`CsrfProtection::generate_token` / `validate_token`.  Rust strings are
modelled as `List Char`; `format!` is list concatenation; the composite
`base64(Sha256(·))` digest of the `sha2`/`base64` crates is an external pure
function passed as a parameter (standard base64 output never contains `':'`,
which enters the round-trip theorem as a hypothesis on that parameter).
Decimal rendering of the `i64` timestamp (`format!("{}")`) and parsing
(`str::parse::<i64>`) are modelled explicitly. -/

/-- The decimal digit character for `d < 10` (the `_` arm is never reached on
the calls below, which pass remainders mod 10). -/
def digitChar : Nat → Char
  | 0 => '0'
  | 1 => '1'
  | 2 => '2'
  | 3 => '3'
  | 4 => '4'
  | 5 => '5'
  | 6 => '6'
  | 7 => '7'
  | 8 => '8'
  | _ => '9'

/-- Numeric value of an ASCII digit character, `none` otherwise. -/
def digitVal (c : Char) : Option Nat :=
  if 48 ≤ c.toNat ∧ c.toNat ≤ 57 then some (c.toNat - 48) else none

/-- Decimal rendering of a natural number, most significant digit first. -/
def natDigits (n : Nat) : List Char :=
  if _h : n < 10 then [digitChar n]
  else natDigits (n / 10) ++ [digitChar (n % 10)]
termination_by n
decreasing_by
  exact Nat.div_lt_self (by omega) (by omega)

/-- `format!("{}", i)` for an `i64`: optional leading minus, then digits. -/
def intRender (i : Int) : List Char :=
  if i < 0 then '-' :: natDigits (-i).toNat else natDigits i.toNat

/-- Accumulator loop of decimal parsing: consumes digit characters, fails on
anything else. -/
def parseDigits : List Char → Nat → Option Nat
  | [], acc => some acc
  | c :: cs, acc =>
      match digitVal c with
      | some d => parseDigits cs (acc * 10 + d)
      | none => none

/-- `str::parse::<i64>`: optional sign, at least one digit, nothing else
(overflow is immaterial at timestamp magnitudes and not modelled). -/
def parseI64 : List Char → Option Int
  | [] => none
  | c :: cs =>
      if c = '-' then
        if cs = [] then none
        else (parseDigits cs 0).map (fun n => -(n : Int))
      else if c = '+' then
        if cs = [] then none
        else (parseDigits cs 0).map (fun n => (n : Int))
      else (parseDigits (c :: cs) 0).map (fun n => (n : Int))

/-- `str::split(sep).collect::<Vec<_>>()`: splitting never yields the empty
list, and `""` splits to `[""]`. -/
def splitOnChar (sep : Char) : List Char → List (List Char)
  | [] => [[]]
  | c :: cs =>
      if c = sep then [] :: splitOnChar sep cs
      else
        match splitOnChar sep cs with
        | [] => [[c]]
        | p :: ps => (c :: p) :: ps

theorem digitVal_digitChar : ∀ d < 10, digitVal (digitChar d) = some d := by
  decide

theorem digitChar_ne_colon (d : Nat) : digitChar d ≠ ':' := by
  unfold digitChar
  split <;> decide

theorem digitChar_ne_minus (d : Nat) : digitChar d ≠ '-' := by
  unfold digitChar
  split <;> decide

theorem digitChar_ne_plus (d : Nat) : digitChar d ≠ '+' := by
  unfold digitChar
  split <;> decide

theorem natDigits_ne_nil (n : Nat) : natDigits n ≠ [] := by
  rw [natDigits]
  split
  · simp
  · simp

theorem natDigits_mem (n : Nat) :
    ∀ c ∈ natDigits n, ∃ d, d < 10 ∧ c = digitChar d := by
  induction n using Nat.strong_induction_on with
  | _ n ih =>
      intro c hc
      rw [natDigits] at hc
      split at hc
      · next h =>
          simp at hc
          exact ⟨n, h, hc⟩
      · next h =>
          rw [List.mem_append] at hc
          rcases hc with hc | hc
          · exact ih (n / 10) (Nat.div_lt_self (by omega) (by omega)) c hc
          · simp at hc
            exact ⟨n % 10, Nat.mod_lt _ (by omega), hc⟩

theorem colon_not_mem_natDigits (n : Nat) : ':' ∉ natDigits n := by
  intro h
  obtain ⟨d, _, hd⟩ := natDigits_mem n ':' h
  exact digitChar_ne_colon d hd.symm

theorem colon_not_mem_intRender (i : Int) : ':' ∉ intRender i := by
  by_cases h : i < 0
  · simp only [intRender, if_pos h, List.mem_cons]
    rintro (hc | hc)
    · exact absurd hc (by decide)
    · exact colon_not_mem_natDigits _ hc
  · simp only [intRender, if_neg h]
    exact colon_not_mem_natDigits _

theorem parseDigits_append (xs ys : List Char) :
    ∀ acc, parseDigits (xs ++ ys) acc =
      (parseDigits xs acc).bind (fun a => parseDigits ys a) := by
  induction xs with
  | nil => intro acc; simp [parseDigits]
  | cons c cs ih =>
      intro acc
      cases h : digitVal c with
      | none => simp [parseDigits, h]
      | some d => simp [parseDigits, h, ih]

theorem parseDigits_natDigits (n : Nat) :
    ∀ acc, parseDigits (natDigits n) acc =
      some (acc * 10 ^ (natDigits n).length + n) := by
  induction n using Nat.strong_induction_on with
  | _ n ih =>
      intro acc
      rw [natDigits]
      split
      · next h =>
          have hd := digitVal_digitChar n h
          simp [parseDigits, hd]
      · next h =>
          have hdiv := ih (n / 10) (Nat.div_lt_self (by omega) (by omega)) acc
          have hd := digitVal_digitChar (n % 10) (Nat.mod_lt _ (by omega))
          rw [parseDigits_append, hdiv]
          simp only [Option.some_bind, parseDigits, hd, List.length_append,
            List.length_singleton]
          congr 1
          rw [pow_succ]
          have hdm : 10 * (n / 10) + n % 10 = n := Nat.div_add_mod n 10
          have h2 : (acc * 10 ^ (natDigits (n / 10)).length + n / 10) * 10 + n % 10
              = acc * (10 ^ (natDigits (n / 10)).length * 10) +
                (10 * (n / 10) + n % 10) := by ring
          rw [h2, hdm]

theorem parseDigits_natDigits_zero (n : Nat) :
    parseDigits (natDigits n) 0 = some n := by
  simpa using parseDigits_natDigits n 0

theorem parseI64_intRender (i : Int) : parseI64 (intRender i) = some i := by
  by_cases hneg : i < 0
  · have hne := natDigits_ne_nil (-i).toNat
    have hcast : (((-i).toNat : Nat) : Int) = -i :=
      Int.toNat_of_nonneg (by omega)
    rw [intRender, if_pos hneg]
    simp [parseI64, hne, parseDigits_natDigits_zero, hcast]
  · obtain ⟨c, cs, hcc⟩ : ∃ c cs, natDigits i.toNat = c :: cs := by
      cases h : natDigits i.toNat with
      | nil => exact absurd h (natDigits_ne_nil _)
      | cons c cs => exact ⟨c, cs, rfl⟩
    obtain ⟨d, _, hcd⟩ := natDigits_mem i.toNat c (by rw [hcc]; simp)
    have hcm : ¬ (c = '-') := by rw [hcd]; exact digitChar_ne_minus d
    have hcp : ¬ (c = '+') := by rw [hcd]; exact digitChar_ne_plus d
    have hcast : ((i.toNat : Nat) : Int) = i := Int.toNat_of_nonneg (by omega)
    rw [intRender, if_neg hneg, hcc]
    simp only [parseI64, if_neg hcm, if_neg hcp]
    rw [← hcc, parseDigits_natDigits_zero]
    simp [hcast]

theorem splitOnChar_not_mem (sep : Char) :
    ∀ l : List Char, sep ∉ l → splitOnChar sep l = [l] := by
  intro l
  induction l with
  | nil => intro _; rfl
  | cons c cs ih =>
      intro h
      have hc : ¬ (c = sep) := fun hx => h (by simp [hx])
      have hcs : sep ∉ cs := fun hx => h (by simp [hx])
      simp only [splitOnChar, if_neg hc]
      rw [ih hcs]

theorem splitOnChar_append (sep : Char) (b : List Char) :
    ∀ a : List Char, sep ∉ a →
      splitOnChar sep (a ++ sep :: b) = a :: splitOnChar sep b := by
  intro a
  induction a with
  | nil => intro _; simp [splitOnChar]
  | cons c a' ih =>
      intro h
      have hc : ¬ (c = sep) := fun hx => h (by simp [hx])
      have ha' : sep ∉ a' := fun hx => h (by simp [hx])
      simp only [List.cons_append, splitOnChar, if_neg hc, List.append_eq]
      rw [ih ha']

/-- `CsrfProtection::generate_token(session_id)` at epoch-seconds `now`:
`data = format!("{}:{}:{}", session_id, timestamp, secret)`,
`token = format!("{}:{}", timestamp, base64(Sha256(data)))`. -/
def generate_token (hashB64 : List Char → List Char)
    (secret session_id : List Char) (now : Int) : List Char :=
  let data := session_id ++ ':' :: (intRender now ++ ':' :: secret)
  intRender now ++ ':' :: hashB64 data

/-- `CsrfProtection::validate_token(token, session_id)` at epoch-seconds
`now`: split on `':'` into exactly two parts, parse the timestamp, reject
tokens older than 86400 seconds, recompute the expected token for the parsed
timestamp and require exact equality with the supplied token. -/
def validate_token (hashB64 : List Char → List Char) (secret : List Char)
    (token session_id : List Char) (now : Int) : Bool :=
  let parts := splitOnChar ':' token
  if parts.length ≠ 2 then false
  else
    match parseI64 (parts.headD []) with
    | none => false
    | some timestamp =>
        if now - timestamp > 86400 then false
        else
          let data := session_id ++ ':' :: (intRender timestamp ++ ':' :: secret)
          let expected := intRender timestamp ++ ':' :: hashB64 data
          token == expected

/-- **C8** — CSRF round-trip.  For every session id, secret and mint time,
validating a freshly minted token for the same session id succeeds.  The only
assumption on the external digest `base64(Sha256(·))` is that its output
contains no `':'`, which holds of standard base64. -/
theorem csrf_round_trip (hashB64 : List Char → List Char)
    (secret session_id : List Char) (now : Int)
    (hhash : ∀ x, ':' ∉ hashB64 x) :
    validate_token hashB64 secret
      (generate_token hashB64 secret session_id now) session_id now = true := by
  have hsplit : splitOnChar ':'
      (intRender now ++ ':' ::
        hashB64 (session_id ++ ':' :: (intRender now ++ ':' :: secret)))
      = [intRender now,
         hashB64 (session_id ++ ':' :: (intRender now ++ ':' :: secret))] := by
    rw [splitOnChar_append ':' _ _ (colon_not_mem_intRender now),
        splitOnChar_not_mem ':' _ (hhash _)]
  simp only [generate_token, validate_token, hsplit]
  simp [parseI64_intRender]

/-- **C8 witness** — the round-trip theorem at a concrete digest function,
secret, session id and time. -/
theorem csrf_round_trip_witness :
    (∀ x : List Char, ':' ∉ (fun _ : List Char => ['h']) x) ∧
    validate_token (fun _ => ['h']) ['k']
      (generate_token (fun _ => ['h']) ['k'] ['s'] 5) ['s'] 5 = true :=
  ⟨fun _ => (by decide : ':' ∉ (['h'] : List Char)),
   csrf_round_trip (fun _ => ['h']) ['k'] ['s'] 5
     (fun _ => (by decide : ':' ∉ (['h'] : List Char)))⟩

/-! ## Gateway middleware pipeline
From `src/services/api-gateway/src/middleware/csrf.rs` (`CsrfMiddleware::call`),
`src/services/api-gateway/src/middleware/auth_middleware.rs` (`Claims`,
success path of `AuthMiddlewareService::call`), and
`src/services/api-gateway/src/main.rs` (the assembled `App`). -/

/-- `struct Claims { sub, exp, iat, user_id: Uuid, email }` decoded from the
JWT (the `Uuid` kept as its string form). -/
structure Claims where
  sub : String
  exp : Nat
  iat : Nat
  user_id : String
  email : String
  deriving DecidableEq, Repr

/-- actix's request-scoped typed `Extensions` map, restricted to the two types
the gateway code ever mentions: `Claims` (inserted by the auth middleware on
success) and `Uuid` (queried by the CSRF middleware; no code in the gateway
ever inserts a bare `Uuid`). -/
structure Extensions where
  claimsSlot : Option Claims
  uuidSlot : Option String
  deriving DecidableEq, Repr

/-- The auth middleware's success path:
`req.extensions_mut().insert(claims)` stores a value of type `Claims`
(it also copies `claims.user_id` into the `x-user-id` header, not modelled
here); the `Uuid` slot of the typed map is untouched. -/
def auth_attach_identity (claims : Claims) (ext : Extensions) : Extensions :=
  { ext with claimsSlot := some claims }

/-- csrf.rs: `req.extensions().get::<Uuid>().map(|id| id.to_string())
.unwrap_or_else(|| "anonymous".to_string())`. -/
def csrf_session_id (ext : Extensions) : String :=
  match ext.uuidSlot with
  | some id => id
  | none => "anonymous"

/-- `str::starts_with` on the underlying characters. -/
def startsWithStr (s pre : String) : Bool :=
  pre.data.isPrefixOf s.data

/-- The CSRF-exempt paths of `CsrfMiddleware::call`. -/
def csrf_exempt_path (path : String) : Bool :=
  startsWithStr path "/auth/login" || startsWithStr path "/auth/register" ||
  startsWithStr path "/auth/password-reset" || startsWithStr path "/health"

/-- `matches!(method, "POST" | "PUT" | "DELETE" | "PATCH")`. -/
def state_changing_method (m : String) : Bool :=
  m = "POST" || m = "PUT" || m = "DELETE" || m = "PATCH"

/-- A gateway request as seen by the CSRF middleware: method, path, the
`X-CSRF-Token` header (characters, when present and readable), and the typed
extensions populated by whatever ran before. -/
structure GwRequest where
  method : String
  path : String
  csrf_token : Option (List Char)
  ext : Extensions

/-- Outcome of the middleware: the 403 CSRF rejection
(`HttpResponse::Forbidden` with the structured error body) or the inner
service's response. -/
inductive GwResponse (R : Type) where
  | forbidden
  | passed (r : R)
  deriving DecidableEq, Repr

/-- HTTP status of a middleware outcome, given the status mapping of the
inner response type. -/
def GwResponse.statusCode {R : Type} (innerStatus : R → Nat) :
    GwResponse R → Nat
  | GwResponse.forbidden => 403
  | GwResponse.passed r => innerStatus r

/-- `CsrfMiddleware::call`.  `inner` is the wrapped service as a transformer
of any downstream shared state `σ` (so "the inner service was not invoked" is
visible as the state coming back unchanged); non-state-changing methods and
exempt paths pass straight through; otherwise a present, valid header token is
required, the session id being resolved from the extensions. -/
def csrf_middleware_call {σ R : Type} (hashB64 : List Char → List Char)
    (secret : List Char) (now : Int) (inner : σ → σ × R)
    (req : GwRequest) (s : σ) : σ × GwResponse R :=
  if state_changing_method req.method then
    if csrf_exempt_path req.path then
      ((inner s).1, GwResponse.passed (inner s).2)
    else
      match req.csrf_token with
      | some token =>
          if validate_token hashB64 secret token (csrf_session_id req.ext).data
              now then
            ((inner s).1, GwResponse.passed (inner s).2)
          else (s, GwResponse.forbidden)
      | none => (s, GwResponse.forbidden)
  else ((inner s).1, GwResponse.passed (inner s).2)

/-- The application assembled in `api-gateway/src/main.rs`:
`.wrap(TracingLogger)`, `.wrap(Cors::permissive())`,
`.wrap(CsrfProtection::new(secret))` around the configured handlers.  The
tracing and permissive-CORS layers pass requests through unchanged, and
neither `RateLimiterService` nor `AuthMiddlewareService` is mounted anywhere
in this app, so the CSRF middleware is the only gate in front of `inner` (the
configured handler, abstract over whatever shared state `σ` it would read or
mutate — e.g. a rate limiter's store). -/
def gateway_app {σ R : Type} (hashB64 : List Char → List Char)
    (secret : List Char) (now : Int) (inner : σ → σ × R)
    (req : GwRequest) (s : σ) : σ × GwResponse R :=
  csrf_middleware_call hashB64 secret now inner req s

/-- **C4** — CSRF rejection is a 403 (not 429) and consumes no downstream
state.  For a state-changing request on a non-exempt path whose CSRF token is
missing or invalid, the assembled gateway answers the 403 rejection and
returns every downstream state `σ` unchanged without invoking the inner
service — in particular no rate-limit counter for any key is incremented
(indeed the app of `main.rs` mounts no rate limiter at all). -/
theorem csrf_reject_403_no_downstream_effect {σ R : Type}
    (hashB64 : List Char → List Char) (secret : List Char) (now : Int)
    (inner : σ → σ × R) (innerStatus : R → Nat) (req : GwRequest) (s : σ)
    (hmethod : state_changing_method req.method = true)
    (hpath : csrf_exempt_path req.path = false)
    (htok : ∀ t, req.csrf_token = some t →
      validate_token hashB64 secret t (csrf_session_id req.ext).data now
        = false) :
    gateway_app hashB64 secret now inner req s = (s, GwResponse.forbidden) ∧
    GwResponse.statusCode innerStatus (GwResponse.forbidden : GwResponse R)
      = 403 ∧
    (403 : Nat) ≠ 429 := by
  refine ⟨?_, rfl, by decide⟩
  cases htokval : req.csrf_token with
  | none =>
      simp [gateway_app, csrf_middleware_call, hmethod, hpath, htokval]
  | some t =>
      have hv := htok t htokval
      simp [gateway_app, csrf_middleware_call, hmethod, hpath, htokval, hv]

/-- **C4 witness** — the rejection theorem instantiated with downstream state
`σ := RlStore` and an inner handler that would bump a rate-limit counter were
it ever reached: a token-less `POST /api/v1/policies` yields the 403 and the
store comes back exactly `[]`. -/
theorem csrf_reject_403_no_downstream_effect_witness :
    gateway_app (fun _ => ['h']) ['k'] 0
      (fun s : RlStore => ((check_rate_limit 100 60 s "ip:9.9.9.9" 0).2, 200))
      { method := "POST", path := "/api/v1/policies", csrf_token := none,
        ext := { claimsSlot := none, uuidSlot := none } } [] =
      ([], GwResponse.forbidden) ∧
    GwResponse.statusCode (fun n : Nat => n)
      (GwResponse.forbidden : GwResponse Nat) = 403 ∧
    (403 : Nat) ≠ 429 :=
  csrf_reject_403_no_downstream_effect (fun _ => ['h']) ['k'] 0
    (fun s : RlStore => ((check_rate_limit 100 60 s "ip:9.9.9.9" 0).2, 200))
    (fun n : Nat => n)
    { method := "POST", path := "/api/v1/policies", csrf_token := none,
      ext := { claimsSlot := none, uuidSlot := none } } []
    (by decide) (by decide) (fun t h => by cases h)

/-- **C9** — The CSRF stage never sees the authenticated identity: the auth
middleware inserts a `Claims` value into the typed extensions, but the CSRF
middleware queries the `Uuid` type, so even for a request whose identity has
been established the resolved session id is the literal `"anonymous"`, not
the claim's user id (here a concrete claim with a distinct user id). -/
theorem csrf_session_ignores_attached_identity :
    csrf_session_id (auth_attach_identity
      { sub := "u-1", exp := 2, iat := 1,
        user_id := "11111111-1111-1111-1111-111111111111",
        email := "a@b.example" }
      { claimsSlot := none, uuidSlot := none }) = "anonymous" ∧
    ("anonymous" : String) ≠ "11111111-1111-1111-1111-111111111111" := by
  exact ⟨rfl, by decide⟩

end Governance
